import Mathlib

/-!
Shallow embedding of the cyberpurseapp news pipeline (classifier.py,
utils.py, threat_map.py, scraper.py) and proofs of its spec properties.

External collaborators are made explicit parameters:
* the OpenAI classification call is an `Except String ClassResult` value
  (`Except.error` models any raised exception: network failure, malformed
  JSON, inference error);
* the geocoder is a function `String → Except String (Option (ℚ × ℚ))`;
* the record store is a `List` of records threaded through each operation;
* HTTP fetch + HTML parse of a source is an `Except String Page` value,
  where a `Page` is its CSS-select function.
All embedded operations are total Lean functions, which captures the
"never raises past this boundary" contracts: every exception path of the
Python code is an explicit branch of the embedding.
-/

namespace Cyberpurse

/-! ### Python dict lookup -/

/-- First-match lookup in an association list; with distinct keys this is
exactly a Python dict's `d[k]` / `k in d` behaviour (`none` = key absent). -/
def dictFind {α : Type} : List (String × α) → String → Option α
  | [], _ => none
  | (k, v) :: rest, key => if key = k then some v else dictFind rest key

/-- Python's `d.get(key, dflt)`. -/
def dictGet {α : Type} (d : List (String × α)) (key : String) (dflt : α) : α :=
  (dictFind d key).getD dflt

theorem dictFind_mem {α : Type} {d : List (String × α)} {key : String}
    {v : α} (h : dictFind d key = some v) : (key, v) ∈ d := by
  induction d with
  | nil => simp [dictFind] at h
  | cons p rest ih =>
      obtain ⟨k, w⟩ := p
      by_cases hk : key = k
      · subst hk
        simp [dictFind] at h
        simp [h]
      · simp [dictFind, hk] at h
        exact List.mem_cons_of_mem _ (ih h)

theorem dictGet_cases {α : Type} (d : List (String × α)) (key : String)
    (dflt : α) :
    dictGet d key dflt = dflt
      ∨ ∃ v, (key, v) ∈ d ∧ dictGet d key dflt = v := by
  unfold dictGet
  cases h : dictFind d key with
  | none => simp
  | some v => exact Or.inr ⟨v, dictFind_mem h, by simp⟩

/-! ### classifier.classify_article -/

/-- An article dict as it flows through `classify_article`: the raw fields
plus the classification fields, absent (`none`) before classification. -/
structure Article where
  title : String
  url : String
  source : String
  region : String
  summary : String
  category : Option String
  threat_type : Option String
  deriving Repr, DecidableEq

/-- The parsed JSON object returned by the inference call: a dict whose
`category` / `threat_type` keys may each be absent. -/
structure ClassResult where
  category? : Option String
  threat_type? : Option String
  deriving Repr, DecidableEq

/-- `classifier.classify_article`. The whole body is one `try`: building the
prompt, the OpenAI call, `json.loads`, and the two `result.get` reads with
defaults. `call` is the outcome of everything that can raise inside the
`try`; the `except` branch writes the fallback pair. -/
def classify_article (call : Except String ClassResult) (article : Article) :
    Article :=
  match call with
  | Except.ok result =>
      { article with
        category := some (result.category?.getD "Uncategorized"),
        threat_type := some (result.threat_type?.getD "Other") }
  | Except.error _ =>
      { article with
        category := some "Uncategorized",
        threat_type := some "Other" }

/-! ### threat_map.calculate_threat_severity -/

/-- The `severity_mapping` dict of `calculate_threat_severity`. -/
def severity_mapping : List (String × Int) :=
  [("Ransomware", 5), ("Zero-day Vulnerability", 5), ("Data Breach", 4),
   ("Supply Chain Attack", 4), ("Phishing", 3), ("Social Engineering", 3),
   ("DDoS", 2), ("Insider Threat", 3), ("APT", 5), ("Malware", 4),
   ("Other", 1)]

/-- The `category_modifiers` dict of `calculate_threat_severity`. -/
def category_modifiers : List (String × Int) :=
  [("Critical Infrastructure", 1), ("Government", 1), ("Healthcare", 1),
   ("Financial", 1)]

/-- `threat_map.calculate_threat_severity`. `category` defaults to `None` in
the source; Python's `if category:` is false for `None` and for the empty
string, so those take the plain-base return. -/
def calculate_threat_severity (threat_type : String)
    (category : Option String := none) : Int :=
  let base_severity := dictGet severity_mapping threat_type 1
  match category with
  | none => base_severity
  | some c =>
      if c = "" then base_severity
      else min 5 (base_severity + dictGet category_modifiers c 0)

/-- The spec's reference definition of severity scoring: table base
(default 1), and `min 5 (base + 1)` exactly when the category is one of the
four sensitive categories. -/
def calculate_threat_severity_ref (threat_type : String)
    (category : Option String) : Int :=
  let base := dictGet severity_mapping threat_type 1
  if category = some "Critical Infrastructure" ∨ category = some "Government"
      ∨ category = some "Healthcare" ∨ category = some "Financial" then
    min 5 (base + 1)
  else base

/-! ### threat_map.get_coordinates -/

/-- The `default_coords` dict of `get_coordinates` (coordinates as exact
rationals; the source's decimal literals are exactly representable). -/
def default_coords : List (String × (ℚ × ℚ)) :=
  [("Kenya", (-1.2921, 36.8219)), ("Global", (0, 0)),
   ("USA", (37.0902, -95.7129)), ("UK", (51.5074, -0.1278)),
   ("EU", (50.8503, 4.3517)), ("Africa", (0.0236, 37.9062)),
   ("Asia", (34.0479, 100.6197)), ("Europe", (54.5260, 15.2551)),
   ("North America", (54.5260, -105.2551)),
   ("South America", (-8.7832, -55.4915)),
   ("Australia", (-25.2744, 133.7751))]

/-- `threat_map.get_coordinates`. The table is consulted first; only on a
miss is the Nominatim geocoder called. `geocode` models `geolocator.geocode`:
`Except.error` is any raised geocoder exception, `Except.ok none` a falsy
`location`; both fall through to `default_coords.get('Global', (0, 0))`. -/
def get_coordinates (geocode : String → Except String (Option (ℚ × ℚ)))
    (region : String) : ℚ × ℚ :=
  match dictFind default_coords region with
  | some coords => coords
  | none =>
      match geocode region with
      | Except.ok (some location) => location
      | _ => dictGet default_coords "Global" (0, 0)

/-! ### collections.Counter and most_common

`Counter(xs)` keeps one entry per distinct value, in first-encountered
order, counting occurrences; `most_common(n)` sorts entries by count
descending with a stable sort (equal counts keep first-encountered order)
and takes the first `n`. -/

/-- The distinct values of `xs` in first-encountered order: the iteration
order of `Counter(xs)`. -/
def counterKeys : List String → List String
  | [] => []
  | x :: rest => x :: (counterKeys rest).filter (fun y => y ≠ x)

/-- The `(value, count)` entries of `Counter(xs)` in iteration order. -/
def counterPairs (xs : List String) : List (String × Nat) :=
  (counterKeys xs).map (fun k => (k, xs.count k))

/-- Stable insertion into a count-descending list: the new entry goes after
every strictly greater count and before every equal or smaller one. -/
def insertByCount (p : String × Nat) : List (String × Nat) → List (String × Nat)
  | [] => [p]
  | q :: rest => if p.2 < q.2 then q :: insertByCount p rest else p :: q :: rest

/-- Stable sort by count descending (insertion sort), as
`Counter.most_common` orders entries. -/
def sortByCountDesc : List (String × Nat) → List (String × Nat)
  | [] => []
  | p :: rest => insertByCount p (sortByCountDesc rest)

/-- `Counter(xs).most_common(n)`. -/
def most_common (n : Nat) (xs : List String) : List (String × Nat) :=
  (sortByCountDesc (counterPairs xs)).take n

/-! ### utils.get_trending_threats -/

/-- `utils.get_trending_threats`. The DataFrame is its `threat_type` column:
one `Option String` per article row; `dropna` keeps the non-null values. -/
def get_trending_threats (df : List (Option String)) : List (String × Nat) :=
  if df.isEmpty then [] else most_common 3 (df.filterMap id)

/-! ### utils.save_to_db -/

/-- A news item dict passed to `save_to_db`: `title`, `url`, `source` and
`summary` are read by direct indexing, the other three by `.get` with a
default. -/
structure NewsItem where
  title : String
  url : String
  source : String
  summary : String
  category : Option String
  region : Option String
  threat_type : Option String
  deriving Repr, DecidableEq

/-- A persisted `news_articles` row (the store-assigned `id` and
`created_at` play no role in the claims and are omitted). -/
structure NewsRecord where
  title : String
  url : String
  source : String
  summary : String
  category : String
  region : String
  threat_type : String
  deriving Repr, DecidableEq

/-- The `NewsArticle(...)` constructed by `save_to_db` for a new item. -/
def newsRecordOfItem (item : NewsItem) : NewsRecord :=
  { title := item.title, url := item.url, source := item.source,
    summary := item.summary,
    category := item.category.getD "Uncategorized",
    region := item.region.getD "Global",
    threat_type := item.threat_type.getD "Other" }

/-- The adds the loop of `save_to_db` leaves pending in the session. The
existence check (`query(...).filter_by(url=...).first()`) runs against the
committed store only: the session is created with `autoflush=False`, so
earlier pending adds of the same call are invisible to it. -/
def pendingAdds (store : List NewsRecord) : List NewsItem → List NewsRecord
  | [] => []
  | item :: rest =>
      if store.any (fun r => r.url == item.url) then pendingAdds store rest
      else newsRecordOfItem item :: pendingAdds store rest

/-- Whether a record list repeats a `url` (the column is `unique`). -/
def hasDupUrl : List NewsRecord → Bool
  | [] => false
  | r :: rest => rest.any (fun s => s.url == r.url) || hasDupUrl rest

/-- Whether flushing `pending` into `store` violates the unique `url`
constraint, which makes `db.commit()` raise. -/
def commitViolation (store pending : List NewsRecord) : Bool :=
  pending.any (fun r => store.any (fun s => s.url == r.url))
    || hasDupUrl pending

/-- `utils.save_to_db`: skip items whose `url` is already stored, then
commit the rest; a commit-time constraint violation is caught and rolled
back, leaving the committed store unchanged. -/
def save_to_db (store : List NewsRecord) (news_items : List NewsItem) :
    List NewsRecord :=
  let pending := pendingAdds store news_items
  if commitViolation store pending then store else store ++ pending

/-! ### classifier.update_recommendations -/

/-- A `security_recommendations` row (the store-assigned `id` and
`created_at` are omitted). -/
structure Recommendation where
  threat_type : String
  recommendation : String
  deriving Repr, DecidableEq

/-- The top recurring threat types of a classified batch:
`[threat for threat, _ in Counter(df['threat_type'].dropna()).most_common(3)]`. -/
def topThreats (df : List (Option String)) : List String :=
  (most_common 3 (df.filterMap id)).map Prod.fst

/-- One persistence operation of the replacement transaction. -/
inductive DbOp
  | deleteAll
  | insertRec (r : Recommendation)
  | commitTx
  deriving Repr, DecidableEq

/-- The operations `update_recommendations` issues inside its transaction:
clear the table, insert one row per top threat, commit. -/
def recOps (gen : String → String) (top : List String) : List DbOp :=
  DbOp.deleteAll :: (top.map fun t => DbOp.insertRec ⟨t, gen t⟩)
    ++ [DbOp.commitTx]

/-- `classifier.update_recommendations`, returning the committed
recommendation store after the call and the persistence operations it
attempted. `gen` is `generate_recommendations` (total: its own `except`
branch returns a static fallback string, so it never raises). `failAt` is
the index of the first operation the store collaborator fails on (`none` =
all succeed); the `except db_error` branch calls `db.rollback()`, and the
delete and inserts live in the one transaction `db.commit()` would close,
so the committed store stays as it was whenever any operation raises. -/
def update_recommendations (gen : String → String) (failAt : Option Nat)
    (store : List Recommendation) (df : List (Option String)) :
    List Recommendation × List DbOp :=
  if df.isEmpty then (store, [])
  else
    let top := topThreats df
    if top.isEmpty then (store, [])
    else
      let ops := recOps gen top
      match failAt with
      | some i =>
          if i < ops.length then (store, ops.take (i + 1))
          else (top.map fun t => ⟨t, gen t⟩, ops)
      | none => (top.map fun t => ⟨t, gen t⟩, ops)

/-! ### scraper.scrape_source -/

/-- The value of an HTML attribute as BeautifulSoup's `element.get` may
return it: absent, a string, or a non-string (multi-valued) value. -/
inductive AttrVal
  | missing
  | str (s : String)
  | multi (vals : List String)
  deriving Repr, DecidableEq

/-- The anchor element a title sub-selector finds: its text and its `href`
attribute. -/
structure TitleEl where
  text : String
  href : AttrVal
  deriving Repr, DecidableEq

/-- A candidate article element: what each of the five title sub-selectors
(`h1 a`, `h2 a`, `h3 a`, `.title a`, `.headline a`) `select_one` returns
on it. -/
structure Element where
  h1_a : Option TitleEl
  h2_a : Option TitleEl
  h3_a : Option TitleEl
  title_a : Option TitleEl
  headline_a : Option TitleEl
  deriving Repr, DecidableEq

/-- The `or`-chain of `scrape_source` choosing the title element. -/
def title_element (e : Element) : Option TitleEl :=
  (((e.h1_a.orElse fun _ => e.h2_a).orElse fun _ => e.h3_a).orElse
      fun _ => e.title_a).orElse fun _ => e.headline_a

/-- A Python value as `extract_url` returns it: a string, or some
non-string object. -/
inductive PyVal
  | str (s : String)
  | nonstr
  deriving Repr, DecidableEq

/-- `scraper.extract_url` applied to the found title element: it has `get`,
so the result is `element.get('href', '')` — the attribute's string value,
`''` when absent, or a non-string value as stored. -/
def extract_url (t : TitleEl) : PyVal :=
  match t.href with
  | AttrVal.missing => PyVal.str ""
  | AttrVal.str s => PyVal.str s
  | AttrVal.multi _ => PyVal.nonstr

/-- A registry entry of `SOURCES`: `{'url': ..., 'region': ...}`. -/
structure SourceInfo where
  url : String
  region : String
  deriving Repr, DecidableEq

/-- An article dict built by `scrape_source` (its `summary` comes from
`scrape_article`). -/
structure ArticleDict where
  title : String
  url : String
  source : String
  region : String
  summary : String
  deriving Repr, DecidableEq

/-- The `SOURCES` registry of scraper.py. -/
def SOURCES : List (String × SourceInfo) :=
  [("Krebs on Security", ⟨"https://krebsonsecurity.com", "North America"⟩),
   ("The Hacker News", ⟨"https://thehackernews.com", "Global"⟩),
   ("Bleeping Computer", ⟨"https://www.bleepingcomputer.com", "North America"⟩),
   ("Security Week", ⟨"https://www.securityweek.com", "North America"⟩),
   ("Dark Reading", ⟨"https://www.darkreading.com", "North America"⟩),
   ("Threatpost", ⟨"https://threatpost.com", "North America"⟩),
   ("CSO Online", ⟨"https://www.csoonline.com", "North America"⟩),
   ("Naked Security", ⟨"https://nakedsecurity.sophos.com", "Europe"⟩),
   ("Kenya Cybersecurity Report", ⟨"https://www.serianu.com/blog", "Kenya"⟩),
   ("Kenya Tech News", ⟨"https://techweez.com/category/security", "Kenya"⟩),
   ("Business Daily Security",
     ⟨"https://www.businessdailyafrica.com/bd/corporate/technology", "Kenya"⟩),
   ("The Standard Tech", ⟨"https://www.standardmedia.co.ke/tech", "Kenya"⟩),
   ("ZDNet Security", ⟨"https://www.zdnet.com/security", "Global"⟩),
   ("Infosecurity Magazine", ⟨"https://www.infosecurity-magazine.com", "Europe"⟩),
   ("SC Magazine", ⟨"https://www.scmagazine.com", "North America"⟩),
   ("The Register Security", ⟨"https://www.theregister.com/security", "Europe"⟩),
   ("Cyber Scoop", ⟨"https://www.cyberscoop.com", "North America"⟩),
   ("The Record", ⟨"https://therecord.media", "Global"⟩),
   ("IT Security Guru", ⟨"https://www.itsecurityguru.org", "Europe"⟩),
   ("Security Affairs", ⟨"https://securityaffairs.com", "Europe"⟩),
   ("The Stack Asia", ⟨"https://thestack.technology/category/security", "Asia"⟩),
   ("Security Brief Asia", ⟨"https://securitybrief.asia", "Asia"⟩),
   ("IT News Africa", ⟨"https://www.itnewsafrica.com/category/security", "Africa"⟩)]

/-- The prioritized selector list of `scrape_source`. -/
def selectors : List String :=
  ["article", ".post", ".article", ".news-item", ".story", ".entry"]

/-- Python's `str.startswith`. -/
def str_startswith (s p : String) : Bool := p.data.isPrefixOf s.data

/-- Python's `str.strip()` with no argument: drop leading and trailing
whitespace. -/
def py_strip (s : String) : String :=
  String.mk
    (((s.data.dropWhile Char.isWhitespace).reverse.dropWhile
        Char.isWhitespace).reverse)

/-- One candidate element's processing inside the selector loop: pick the
title element, extract and validate the url (`if url and isinstance(url,
str)`), absolutize it against the registry url, and build the article dict
(`scrapeArt` is `scrape_article`, total: it catches every exception and
returns `""`). `none` = the candidate contributes no article. -/
def extractArticle (scrapeArt : String → String) (source_name : String)
    (info : SourceInfo) (e : Element) : Option ArticleDict :=
  match title_element e with
  | none => none
  | some t =>
      match extract_url t with
      | PyVal.nonstr => none
      | PyVal.str u =>
          if u = "" then none
          else
            let url := if str_startswith u "http" then u else info.url ++ u
            some { title := py_strip t.text, url := url, source := source_name,
                   region := info.region, summary := scrapeArt url }

/-- The per-selector extraction: the first five matched elements are
processed. -/
def extractFromElements (scrapeArt : String → String) (source_name : String)
    (info : SourceInfo) (elems : List Element) : List ArticleDict :=
  (elems.take 5).filterMap (extractArticle scrapeArt source_name info)

/-- The selector loop of `scrape_source`: skip selectors matching no
elements; after processing a matching selector's elements, break only if
the accumulated `articles` list is non-empty. -/
def selectorLoop (extract : List Element → List ArticleDict)
    (select : String → List Element) :
    List String → List ArticleDict → List ArticleDict
  | [], acc => acc
  | s :: rest, acc =>
      let elems := select s
      if elems.isEmpty then selectorLoop extract select rest acc
      else
        let acc2 := acc ++ extract elems
        if acc2.isEmpty then selectorLoop extract select rest acc2
        else acc2

/-- `scraper.scrape_source`. `fetch` is the outcome of `requests.get` plus
`BeautifulSoup` parsing: on success a page, i.e. its CSS-select function;
`Except.error` models any exception raised while fetching, parsing or
extracting, which the `except` branch turns into the empty result. -/
def scrape_source (scrapeArt : String → String) (source_name : String)
    (info : SourceInfo) (fetch : Except String (String → List Element)) :
    List ArticleDict :=
  match fetch with
  | Except.error _ => []
  | Except.ok select =>
      selectorLoop (extractFromElements scrapeArt source_name info) select
        selectors []

/-- `scraper.scrape_all_sources`: every source is scraped independently
(`fetchOf` gives each source's fetch outcome) and the per-source results
are concatenated in registry order, in which the futures dict is
iterated. -/
def scrape_all_sources (scrapeArt : String → String)
    (fetchOf : String → SourceInfo → Except String (String → List Element))
    (sources : List (String × SourceInfo)) : List ArticleDict :=
  sources.foldl (fun all_articles s =>
    let articles := scrape_source scrapeArt s.1 s.2 (fetchOf s.1 s.2)
    if articles.isEmpty then all_articles else all_articles ++ articles) []

/-- Modelled from the claim under test (C5): a scan that stops at the very
first selector that matches any elements and returns only what those
elements extract, even when they extract nothing. -/
def selectorScan_claim (extract : List Element → List ArticleDict)
    (select : String → List Element) : List String → List ArticleDict
  | [] => []
  | s :: rest =>
      let elems := select s
      if elems.isEmpty then selectorScan_claim extract select rest
      else extract elems

/-- The amended scan: stop at the first selector whose matched elements
extract at least one article; a selector whose elements extract none does
not stop the scan. -/
def selectorScan_firstNonempty (extract : List Element → List ArticleDict)
    (select : String → List Element) : List String → List ArticleDict
  | [] => []
  | s :: rest =>
      let out := extract (select s)
      if out.isEmpty then selectorScan_firstNonempty extract select rest
      else out

/-! ### Theorems: C1, C2, C9 -/

/-- C1: if the external classification call raises any exception,
`classify_article` returns the input article with
`category = "Uncategorized"` and `threat_type = "Other"` and all other
fields unchanged. `classify_article` is a total function of the call's
outcome, so no exception propagates to its caller. -/
theorem classify_article_fallback_on_error (article : Article) (e : String) :
    classify_article (Except.error e) article =
      { article with
        category := some "Uncategorized", threat_type := some "Other" } := by
  rfl

theorem severity_base_bounds (t : String) :
    1 ≤ dictGet severity_mapping t 1 ∧ dictGet severity_mapping t 1 ≤ 5 := by
  rcases dictGet_cases severity_mapping t 1 with h | ⟨v, hv, h⟩
  · rw [h]; exact ⟨le_refl 1, by norm_num⟩
  · rw [h]
    have hall : ∀ p ∈ severity_mapping, 1 ≤ p.2 ∧ p.2 ≤ 5 := by decide
    exact hall (t, v) hv

theorem modifier_value (s : String) :
    dictGet category_modifiers s 0 =
      if s = "Critical Infrastructure" ∨ s = "Government" ∨ s = "Healthcare"
          ∨ s = "Financial" then 1 else 0 := by
  by_cases h1 : s = "Critical Infrastructure"
  · subst h1; rfl
  by_cases h2 : s = "Government"
  · subst h2; rfl
  by_cases h3 : s = "Healthcare"
  · subst h3; rfl
  by_cases h4 : s = "Financial"
  · subst h4; rfl
  simp [dictGet, dictFind, category_modifiers, h1, h2, h3, h4]

/-- C2: `calculate_threat_severity` equals the spec's reference definition
on every input; the result always lies in `[1, 5]`; and
`("Ransomware", "Healthcare")` scores 5. -/
theorem calculate_threat_severity_correct :
    (∀ threat_type category,
        calculate_threat_severity threat_type category =
          calculate_threat_severity_ref threat_type category)
    ∧ (∀ threat_type category,
        1 ≤ calculate_threat_severity threat_type category
          ∧ calculate_threat_severity threat_type category ≤ 5)
    ∧ calculate_threat_severity "Ransomware" (some "Healthcare") = 5 := by
  have key : ∀ t c, calculate_threat_severity t c =
      calculate_threat_severity_ref t c := by
    intro t c
    obtain ⟨hb1, hb5⟩ := severity_base_bounds t
    unfold calculate_threat_severity calculate_threat_severity_ref
    match c with
    | none => simp
    | some s =>
        dsimp only
        by_cases hs : s = ""
        · subst hs
          simp
        · rw [if_neg hs, modifier_value s]
          by_cases hin : s = "Critical Infrastructure" ∨ s = "Government"
              ∨ s = "Healthcare" ∨ s = "Financial"
          · simp [hin]
          · have hio : ¬ (some s = some "Critical Infrastructure"
                ∨ some s = some "Government" ∨ some s = some "Healthcare"
                ∨ some s = some "Financial") := by
              simpa using hin
            rw [if_neg hin, if_neg hio]
            omega
  refine ⟨key, ?_, ?_⟩
  · intro t c
    rw [key t c]
    obtain ⟨hb1, hb5⟩ := severity_base_bounds t
    unfold calculate_threat_severity_ref
    dsimp only
    split <;> omega
  · rw [key]
    rfl

/-- C9: for every geocoder (called or not, succeeding or failing),
`get_coordinates` resolves `"Kenya"` to exactly `(-1.2921, 36.8219)` from
the built-in table: the result does not depend on the geocoder, so no
external geocoding call can affect it. -/
theorem get_coordinates_kenya
    (geocode : String → Except String (Option (ℚ × ℚ))) :
    get_coordinates geocode "Kenya" = (-1.2921, 36.8219) := by
  rfl

theorem filter_eq_nil_of_any_false {l : List NewsRecord} {u : String}
    (h : l.any (fun r => r.url == u) = false) :
    l.filter (fun r => r.url == u) = [] := by
  induction l with
  | nil => rfl
  | cons r rest ih =>
      simp only [List.any_cons, Bool.or_eq_false_iff] at h
      simp [List.filter_cons, h.1, ih h.2]

theorem filter_length_one_of_unique {l : List NewsRecord} {u : String}
    (hdup : hasDupUrl l = false)
    (hmem : l.any (fun r => r.url == u) = true) :
    (l.filter (fun r => r.url == u)).length = 1 := by
  induction l with
  | nil => simp at hmem
  | cons r rest ih =>
      simp only [hasDupUrl, Bool.or_eq_false_iff] at hdup
      by_cases hr : r.url == u
      · have hru : r.url = u := by simpa using hr
        have hnone : rest.any (fun s => s.url == u) = false := by
          have := hdup.1
          simpa [hru] using this
        simp [List.filter_cons, hr, filter_eq_nil_of_any_false hnone]
      · have hr' : (r.url == u) = false := by simpa using hr
        simp only [List.any_cons, hr', Bool.false_or] at hmem
        simp [List.filter_cons, hr', ih hdup.2 hmem]

/-- C3: saving is idempotent on `url`. A single item whose `url` is already
stored leaves the store exactly as it was (no second record, no field of
the existing record altered); and saving two items with the same `url` in
sequence leaves exactly one record with that `url` in the store. -/
theorem save_to_db_idempotent_on_url :
    (∀ store item, store.any (fun r => r.url == item.url) = true →
        save_to_db store [item] = store)
    ∧ (∀ store a b, hasDupUrl store = false → a.url = b.url →
        ((save_to_db (save_to_db store [a]) [b]).filter
            (fun r => r.url == a.url)).length = 1) := by
  have existing : ∀ store item,
      store.any (fun r => r.url == item.url) = true →
      save_to_db store [item] = store := by
    intro store item h
    simp [save_to_db, pendingAdds, h, commitViolation, hasDupUrl]
  refine ⟨existing, ?_⟩
  intro store a b hdup hab
  by_cases hin : store.any (fun r => r.url == a.url) = true
  · have h1 : save_to_db store [a] = store := existing store a hin
    have h2 : save_to_db store [b] = store := by
      apply existing
      simpa [← hab] using hin
    rw [h1, h2]
    exact filter_length_one_of_unique hdup hin
  · have hin' : store.any (fun r => r.url == a.url) = false := by
      simpa using hin
    have h1 : save_to_db store [a] = store ++ [newsRecordOfItem a] := by
      simp [save_to_db, pendingAdds, hin', commitViolation, hasDupUrl]
      intro x hx
      have hx' := (List.any_eq_false.mp hin') x hx
      simpa [newsRecordOfItem] using hx'
    have hmem2 : (store ++ [newsRecordOfItem a]).any
        (fun r => r.url == b.url) = true := by
      simp [newsRecordOfItem, ← hab]
    have h2 : save_to_db (store ++ [newsRecordOfItem a]) [b] =
        store ++ [newsRecordOfItem a] := existing _ b hmem2
    rw [h1, h2]
    rw [List.filter_append]
    simp [filter_eq_nil_of_any_false hin', newsRecordOfItem]

/-! ### Lemmas on `most_common` -/

theorem mem_insertByCount {p q : String × Nat} {l : List (String × Nat)} :
    p ∈ insertByCount q l ↔ p = q ∨ p ∈ l := by
  induction l with
  | nil => simp [insertByCount]
  | cons r rest ih =>
      by_cases h : q.2 < r.2
      · simp only [insertByCount, if_pos h, List.mem_cons, ih]
        tauto
      · simp only [insertByCount, if_neg h, List.mem_cons]

theorem mem_sortByCountDesc {p : String × Nat} {l : List (String × Nat)} :
    p ∈ sortByCountDesc l ↔ p ∈ l := by
  induction l with
  | nil => simp [sortByCountDesc]
  | cons q rest ih => simp [sortByCountDesc, mem_insertByCount, ih]

theorem sorted_insertByCount {p : String × Nat} {l : List (String × Nat)}
    (hl : List.Sorted (fun a b : String × Nat => b.2 ≤ a.2) l) :
    List.Sorted (fun a b : String × Nat => b.2 ≤ a.2) (insertByCount p l) := by
  induction l with
  | nil => simp [insertByCount]
  | cons q rest ih =>
      rw [List.sorted_cons] at hl
      by_cases h : p.2 < q.2
      · simp only [insertByCount, if_pos h, List.sorted_cons]
        refine ⟨?_, ih hl.2⟩
        intro b hb
        rcases mem_insertByCount.mp hb with rfl | hb'
        · omega
        · exact hl.1 b hb'
      · simp only [insertByCount, if_neg h, List.sorted_cons]
        refine ⟨?_, hl.1, hl.2⟩
        intro b hb
        rcases List.mem_cons.mp hb with rfl | hb'
        · omega
        · have := hl.1 b hb'
          omega

theorem sorted_sortByCountDesc (l : List (String × Nat)) :
    List.Sorted (fun a b : String × Nat => b.2 ≤ a.2) (sortByCountDesc l) := by
  induction l with
  | nil => simp [sortByCountDesc]
  | cons p rest ih => exact sorted_insertByCount ih

theorem filter_insertByCount (c : Nat) {p : String × Nat}
    {l : List (String × Nat)}
    (hl : List.Sorted (fun a b : String × Nat => b.2 ≤ a.2) l) :
    (insertByCount p l).filter (fun x => x.2 == c)
      = ((p :: l).filter (fun x => x.2 == c)) := by
  induction l with
  | nil => simp [insertByCount]
  | cons q rest ih =>
      rw [List.sorted_cons] at hl
      by_cases h : p.2 < q.2
      · simp only [insertByCount, if_pos h]
        by_cases hq : q.2 = c
        · have hp : ¬ p.2 = c := by omega
          simp [List.filter_cons, hq, hp, ih hl.2]
        · simp [List.filter_cons, hq, ih hl.2]
      · simp only [insertByCount, if_neg h]

theorem filter_sortByCountDesc (c : Nat) (l : List (String × Nat)) :
    (sortByCountDesc l).filter (fun x => x.2 == c)
      = l.filter (fun x => x.2 == c) := by
  induction l with
  | nil => rfl
  | cons p rest ih =>
      have h1 : (sortByCountDesc (p :: rest)).filter (fun x => x.2 == c)
          = ((p :: sortByCountDesc rest).filter (fun x => x.2 == c)) :=
        filter_insertByCount c (sorted_sortByCountDesc rest)
      rw [h1, List.filter_cons, List.filter_cons, ih]

theorem counterKeys_subset {k : String} {xs : List String}
    (h : k ∈ counterKeys xs) : k ∈ xs := by
  induction xs with
  | nil => simp [counterKeys] at h
  | cons x rest ih =>
      simp only [counterKeys, List.mem_cons] at h ⊢
      rcases h with rfl | h
      · exact Or.inl rfl
      · exact Or.inr (ih (List.mem_of_mem_filter h))

/-- C8: `get_trending_threats` returns at most 3 entries; every returned
entry pairs a threat type occurring (non-null) in the batch with its exact
occurrence count; entries are in descending frequency order; the descending
sort is stable, so equal counts keep the first-encountered (Counter
iteration) order; and the 2×Phishing + 1×Ransomware batch yields exactly
`[("Phishing", 2), ("Ransomware", 1)]`. -/
theorem get_trending_threats_correct :
    (∀ df : List (Option String), (get_trending_threats df).length ≤ 3)
    ∧ (∀ df : List (Option String),
        List.Sorted (fun a b : String × Nat => b.2 ≤ a.2)
          (get_trending_threats df))
    ∧ (∀ (df : List (Option String)) p, p ∈ get_trending_threats df →
        p.2 = (df.filterMap id).count p.1 ∧ some p.1 ∈ df)
    ∧ (∀ (df : List (Option String)) c,
        (sortByCountDesc (counterPairs (df.filterMap id))).filter
          (fun x => x.2 == c)
        = (counterPairs (df.filterMap id)).filter (fun x => x.2 == c))
    ∧ get_trending_threats [some "Phishing", some "Phishing",
        some "Ransomware"] = [("Phishing", 2), ("Ransomware", 1)] := by
  refine ⟨?_, ?_, ?_, ?_, by decide⟩
  · intro df
    unfold get_trending_threats
    split
    · simp
    · exact List.length_take_le 3 _
  · intro df
    unfold get_trending_threats
    split
    · simp
    · exact List.Pairwise.sublist (List.take_sublist 3 _)
        (sorted_sortByCountDesc _)
  · intro df p hp
    unfold get_trending_threats at hp
    split at hp
    · simp at hp
    · have hp1 : p ∈ sortByCountDesc (counterPairs (df.filterMap id)) :=
        (List.take_sublist 3 _).mem hp
      have hp2 : p ∈ counterPairs (df.filterMap id) :=
        mem_sortByCountDesc.mp hp1
      obtain ⟨k, hk, hkp⟩ := List.mem_map.mp hp2
      refine ⟨by rw [← hkp], ?_⟩
      have hkx : k ∈ df.filterMap id := counterKeys_subset hk
      obtain ⟨a, ha, hak⟩ := List.mem_filterMap.mp hkx
      have hka : a = some k := hak
      have hk1 : p.1 = k := by rw [← hkp]
      rw [hk1, ← hka]
      exact ha
  · intro df c
    exact filter_sortByCountDesc c _

/-- C4: the recommendation replacement is atomic. If the store collaborator
fails on any operation of the delete-then-insert replacement (the delete,
any insert, or the commit), the transaction is rolled back and the
committed recommendation set after the call is exactly the set before. -/
theorem update_recommendations_atomic (gen : String → String)
    (store : List Recommendation) (df : List (Option String)) (i : Nat)
    (h : i < (recOps gen (topThreats df)).length) :
    (update_recommendations gen (some i) store df).1 = store := by
  unfold update_recommendations
  by_cases h1 : df.isEmpty
  · simp [h1]
  · by_cases h2 : (topThreats df).isEmpty
    · simp [h1, h2]
    · simp [h1, h2, h]

/-- C4 witness: a failure on the very first operation (the delete) of a
one-threat batch leaves a concrete prior store untouched. -/
theorem update_recommendations_atomic_witness :
    (update_recommendations (fun t => t) (some 0)
        [⟨"Phishing", "use MFA"⟩] [some "Ransomware"]).1
      = [⟨"Phishing", "use MFA"⟩] :=
  update_recommendations_atomic (fun t => t) [⟨"Phishing", "use MFA"⟩]
    [some "Ransomware"] 0 (by decide)

/-- C7: on a batch that is empty or whose `threat_type` values are all
null, `update_recommendations` returns early: it attempts no persistence
operation at all (no delete, no insert) and the stored recommendation set
is exactly as it was. -/
theorem update_recommendations_early_return (gen : String → String)
    (failAt : Option Nat) (store : List Recommendation)
    (df : List (Option String))
    (h : df = [] ∨ ∀ x ∈ df, x = none) :
    update_recommendations gen failAt store df = (store, []) := by
  rcases h with rfl | hnone
  · rfl
  · unfold update_recommendations
    split
    · rfl
    · have hfm : df.filterMap id = [] := by
        rw [List.filterMap_eq_nil_iff]
        intro a ha
        rw [hnone a ha]
        rfl
      have htop : topThreats df = [] := by
        unfold topThreats most_common counterPairs counterKeys
        rw [hfm]
        rfl
      rw [htop]
      rfl

/-- C7 witness: an all-null one-row batch leaves a concrete prior store
untouched and issues no operation. -/
theorem update_recommendations_early_return_witness :
    update_recommendations (fun t => t) (some 2)
        [⟨"DDoS", "rate-limit"⟩] [none]
      = ([⟨"DDoS", "rate-limit"⟩], []) :=
  update_recommendations_early_return (fun t => t) (some 2)
    [⟨"DDoS", "rate-limit"⟩] [none] (Or.inr (by decide))

/-! ### Lemmas for the scraper theorems -/

theorem selectorLoop_eq_firstNonempty
    (extract : List Element → List ArticleDict)
    (select : String → List Element) (hnil : extract [] = [])
    (ss : List String) :
    selectorLoop extract select ss [] =
      selectorScan_firstNonempty extract select ss := by
  induction ss with
  | nil => rfl
  | cons s rest ih =>
      simp only [selectorLoop, selectorScan_firstNonempty, List.nil_append]
      by_cases he : (select s).isEmpty
      · have hsel : select s = [] := by simpa using he
        rw [if_pos he, hsel, hnil, ih]
        rfl
      · rw [if_neg he]
        by_cases hout : (extract (select s)).isEmpty
        · have hext : extract (select s) = [] := by simpa using hout
          rw [if_pos hout, hext, ih]
          simp [selectorScan_firstNonempty]
        · rw [if_neg hout, if_neg hout]

theorem mem_selectorLoop {extract : List Element → List ArticleDict}
    {select : String → List Element} {ss : List String}
    {acc : List ArticleDict} {a : ArticleDict}
    (h : a ∈ selectorLoop extract select ss acc) :
    a ∈ acc ∨ ∃ elems, a ∈ extract elems := by
  induction ss generalizing acc with
  | nil => exact Or.inl h
  | cons s rest ih =>
      simp only [selectorLoop] at h
      split at h
      · exact ih h
      · split at h
        · rcases ih h with hacc | hex
          · rcases List.mem_append.mp hacc with h1 | h2
            · exact Or.inl h1
            · exact Or.inr ⟨select s, h2⟩
          · exact Or.inr hex
        · rcases List.mem_append.mp h with h1 | h2
          · exact Or.inl h1
          · exact Or.inr ⟨select s, h2⟩

theorem str_startswith_append {base u p : String}
    (h : str_startswith base p = true) :
    str_startswith (base ++ u) p = true := by
  unfold str_startswith at h ⊢
  rw [List.isPrefixOf_iff_prefix] at h ⊢
  rw [String.data_append]
  exact h.trans (List.prefix_append _ _)

theorem str_startswith_https_http {s : String}
    (h : str_startswith s "https" = true) :
    str_startswith s "http" = true := by
  unfold str_startswith at h ⊢
  rw [List.isPrefixOf_iff_prefix] at h ⊢
  have hp : "http".data <+: "https".data := by decide
  exact hp.trans h

theorem str_startswith_http_ne_empty {s : String}
    (h : str_startswith s "http" = true) : s ≠ "" := by
  intro hs
  subst hs
  exact absurd h (by decide)

theorem extractArticle_url {scrapeArt : String → String}
    {source_name : String} {info : SourceInfo} {e : Element} {a : ArticleDict}
    (hb : str_startswith info.url "https" = true)
    (h : extractArticle scrapeArt source_name info e = some a) :
    a.url ≠ "" ∧ str_startswith a.url "http" = true := by
  unfold extractArticle at h
  cases ht : title_element e with
  | none => rw [ht] at h; exact absurd h (by simp)
  | some t =>
      rw [ht] at h
      dsimp only at h
      cases hu : extract_url t with
      | nonstr => rw [hu] at h; exact absurd h (by simp)
      | str u =>
          rw [hu] at h
          dsimp only at h
          by_cases hue : u = ""
          · rw [if_pos hue] at h; exact absurd h (by simp)
          · rw [if_neg hue] at h
            by_cases hsw : str_startswith u "http" = true
            · simp only [hsw, if_true] at h
              have ha := Option.some.injEq _ _ ▸ h
              rw [← Option.some_inj.mp h]
              exact ⟨hue, hsw⟩
            · have hsw' : str_startswith u "http" = false := by
                simpa using hsw
              simp only [hsw', Bool.false_eq_true, if_false] at h
              rw [← Option.some_inj.mp h]
              refine ⟨?_, str_startswith_append (str_startswith_https_http hb)⟩
              exact str_startswith_http_ne_empty
                (str_startswith_append (str_startswith_https_http hb))

/-! ### Fixture page for the selector-scan counterexample -/

/-- An `article`-matched element carrying no title link at all. -/
def cx_elem_bare : Element := ⟨none, none, none, none, none⟩

/-- A `.post`-matched element with a proper absolute title link. -/
def cx_elem_titled : Element :=
  ⟨some ⟨"Breach at Example", AttrVal.str "https://example.org/breach"⟩,
   none, none, none, none⟩

/-- A page on which `article` matches one element that yields no extracted
article, while `.post` matches one element that yields an article. -/
def cx_select : String → List Element := fun s =>
  if s = "article" then [cx_elem_bare]
  else if s = ".post" then [cx_elem_titled] else []

/-- The fixture source's registry entry. -/
def cx_info : SourceInfo := ⟨"https://example.org", "Global"⟩

/-- A `scrape_article` stub returning an empty summary. -/
def cx_scrapeArt : String → String := fun _ => ""

/-- C5 counterexample: on `cx_select` the selector `article` matches an
element, yet `scrape_source` returns the article extracted by the later
selector `.post` — so a later selector was consulted after a match, and the
result differs from the first-match-on-elements scan the claim
describes. -/
theorem scrape_source_first_selector_match_cex :
    (cx_select "article").isEmpty = false
    ∧ extractFromElements cx_scrapeArt "Example" cx_info
        (cx_select "article") = []
    ∧ scrape_source cx_scrapeArt "Example" cx_info (Except.ok cx_select)
        = [⟨"Breach at Example", "https://example.org/breach", "Example",
            "Global", ""⟩]
    ∧ scrape_source cx_scrapeArt "Example" cx_info (Except.ok cx_select)
        ≠ selectorScan_claim
            (extractFromElements cx_scrapeArt "Example" cx_info)
            cx_select selectors := by
  refine ⟨rfl, rfl, by decide, by decide⟩

/-- C5 (amended): `scrape_source` stops at the first selector whose matched
elements extract at least one article, and returns exactly that
extraction; a selector whose elements extract no article (even one that
matched elements) does not stop the scan. -/
theorem scrape_source_first_extraction_wins (scrapeArt : String → String)
    (source_name : String) (info : SourceInfo)
    (select : String → List Element) :
    scrape_source scrapeArt source_name info (Except.ok select)
      = selectorScan_firstNonempty
          (extractFromElements scrapeArt source_name info) select selectors :=
  selectorLoop_eq_firstNonempty _ select rfl selectors

/-- C6: per-source failure is isolated. A source whose fetch, parse or
extraction raises yields the empty list from `scrape_source` (the function
is total: no exception propagates), and dropping such a source from the
registry leaves `scrape_all_sources`'s concatenated result unchanged —
every other source's contribution is unaffected. -/
theorem scraper_fault_isolation :
    (∀ (scrapeArt : String → String) (source_name : String)
        (info : SourceInfo) (e : String),
        scrape_source scrapeArt source_name info (Except.error e) = [])
    ∧ (∀ (scrapeArt : String → String)
        (fetchOf : String → SourceInfo → Except String (String → List Element))
        (pre : List (String × SourceInfo)) (s : String × SourceInfo)
        (post : List (String × SourceInfo)) (e : String),
        fetchOf s.1 s.2 = Except.error e →
        scrape_all_sources scrapeArt fetchOf (pre ++ s :: post)
          = scrape_all_sources scrapeArt fetchOf (pre ++ post)) := by
  refine ⟨fun _ _ _ _ => rfl, ?_⟩
  intro scrapeArt fetchOf pre s post e h
  unfold scrape_all_sources
  rw [List.foldl_append, List.foldl_append, List.foldl_cons]
  simp only [h]
  rfl

/-- C10: every `SOURCES` registry url starts with `"https"`; a candidate
whose href is non-string or empty is dropped entirely; and — for any
source whose registry url starts with `"https"` — every article dict
`scrape_source` returns has a non-empty url starting with `"http"` (an
extracted href that does not start with `"http"` gets the registry url
prepended). -/
theorem scrape_source_url_invariant :
    (∀ p ∈ SOURCES, str_startswith p.2.url "https" = true)
    ∧ (∀ (scrapeArt : String → String) (source_name : String)
        (info : SourceInfo) (e : Element) (t : TitleEl),
        title_element e = some t →
        (extract_url t = PyVal.nonstr ∨ extract_url t = PyVal.str "") →
        extractArticle scrapeArt source_name info e = none)
    ∧ (∀ (scrapeArt : String → String) (source_name : String)
        (info : SourceInfo) (fetch : Except String (String → List Element))
        (a : ArticleDict),
        str_startswith info.url "https" = true →
        a ∈ scrape_source scrapeArt source_name info fetch →
        a.url ≠ "" ∧ str_startswith a.url "http" = true) := by
  refine ⟨by decide, ?_, ?_⟩
  · intro scrapeArt source_name info e t ht hu
    unfold extractArticle
    rw [ht]
    dsimp only
    rcases hu with hu | hu
    · rw [hu]
    · rw [hu]
      dsimp only
      rfl
  · intro scrapeArt source_name info fetch a hb ha
    match fetch with
    | Except.error e => exact absurd ha (by simp [scrape_source])
    | Except.ok select =>
        rcases mem_selectorLoop ha with hnil | ⟨elems, hmem⟩
        · exact absurd hnil (by simp)
        · obtain ⟨el, hel, hex⟩ := List.mem_filterMap.mp hmem
          exact extractArticle_url hb hex

end Cyberpurse
